import Mathlib

/-!
Shallow embedding of the query-interpretation pipeline of `ask-era`
(`src/app/query.service.ts`), together with proofs about its behaviour.

Modelling conventions:
* JavaScript `Date` values are modelled by their epoch value in
  milliseconds, as `Int` (JS dates are integral millisecond values).
* JavaScript strings are Lean `String`s; where the code splits strings
  character by character (`String.prototype.split` with a one-character
  separator in `toDataRequest`) we work on the underlying `List Char`,
  with `jsSplit` reproducing the JS semantics.
* External collaborators (the Sugar date parser, the keyword extractor,
  the geocoding service) are parameters of the embedded functions; the
  geocoding result type is an opaque type parameter `G`.
-/

namespace AskEra

/-! ### JS string splitting (`String.prototype.split` with a one-char separator) -/

/-- Auxiliary splitter: `acc` is the current (unfinished) field. -/
def splitCharAux (sep : Char) : List Char → List Char → List (List Char)
  | [], acc => [acc]
  | x :: xs, acc =>
    if x = sep then acc :: splitCharAux sep xs []
    else splitCharAux sep xs (acc ++ [x])

/-- `jsSplit s sep` models `s.split(sep)` in JavaScript for a one-character
separator: `"a-b".split("-") = ["a","b"]`, `"".split("-") = [""]`. -/
def jsSplit (s : List Char) (sep : Char) : List (List Char) :=
  splitCharAux sep s []

/-! ### Decimal rendering of numbers (JS number-to-string on integral and
finite-decimal values) -/

/-- The decimal digit characters. -/
def digitCharsList : List Char := ['0', '1', '2', '3', '4', '5', '6', '7', '8', '9']

/-- Character for a single decimal digit. -/
def digitChar : Nat → Char
  | 0 => '0'
  | 1 => '1'
  | 2 => '2'
  | 3 => '3'
  | 4 => '4'
  | 5 => '5'
  | 6 => '6'
  | 7 => '7'
  | 8 => '8'
  | _ => '9'

/-- Decimal digits, with structural fuel (`fuel ≥` the digit count, so the
base case is never hit in `natChars`). -/
def natCharsAux : Nat → Nat → List Char
  | 0, _ => []
  | fuel + 1, n =>
    if n < 10 then [digitChar n]
    else natCharsAux fuel (n / 10) ++ [digitChar (n % 10)]

/-- Decimal digits of a natural number, most significant first. -/
def natChars (n : Nat) : List Char := natCharsAux (n + 1) n

def natToString (n : Nat) : String := (natChars n).asString

/-- JS rendering of an integer number (`${n}`). -/
def intToString (n : Int) : String :=
  if n < 0 then "-" ++ natToString n.natAbs else natToString n.toNat

/-- Left-pad the decimal digits of `n` with zeros to width `w`. -/
def padChars (w : Nat) (n : Nat) : List Char :=
  List.replicate (w - (natChars n).length) '0' ++ natChars n

/-- Smallest exponent `k ≤ 99` with `q * 10^k` integral, i.e. with the
denominator dividing `10^k` (`100` means none). -/
def decExponent (q : ℚ) : Nat :=
  (List.range 100).findIdx (fun k => (10 : Nat) ^ k % q.den = 0)

/-- JS rendering of a number (`${x}`), modelled on rationals whose value is a
finite decimal (which is how the geocoding coordinates arise). Computed on
the `num`/`den` representation: `n` below is `|q| * 10^k`. -/
def numToString (q : ℚ) : String :=
  if q.num = 0 then "0"
  else
    let sign := if q.num < 0 then "-" else ""
    let k := decExponent q
    let n := q.num.natAbs * ((10 : Nat) ^ k / q.den)
    if k = 0 then sign ++ natToString n
    else
      let ds := natChars n
      let ds := List.replicate (k + 1 - ds.length) '0' ++ ds
      sign ++ (ds.take (ds.length - k)).asString ++ "." ++ (ds.drop (ds.length - k)).asString

/-- Exact rational subtraction, written on the `num`/`den` representation so
that it evaluates by kernel reduction (`Rat.sub` is `@[irreducible]`);
`ratSub_eq` identifies it with `Sub.sub`. -/
def ratSub (a b : ℚ) : ℚ := mkRat (a.num * b.den - b.num * a.den) (a.den * b.den)

/-- Ceiling of a rational number (JS `Math.ceil`), written on the `num`/`den`
representation; `ratCeil_eq` identifies it with `Int.ceil`. -/
def ratCeil (q : ℚ) : Int := -(-q.num / (q.den : Int))

theorem ratSub_eq (a b : ℚ) : ratSub a b = a - b := (Rat.sub_def' a b).symm

theorem ratCeil_eq (q : ℚ) : ratCeil q = ⌈q⌉ := by
  have h : (⌊-q⌋ : Int) = -⌈q⌉ := Int.floor_neg
  rw [Rat.floor_def, Rat.neg_num, Rat.neg_den] at h
  unfold ratCeil
  omega

/-! ### The UTC calendar (the parts of the JS `Date` runtime the code uses) -/

/-- Milliseconds per day. -/
def msPerDay : Int := 86400000

/-- Largest epoch offset (in ms) of a valid JS `Date`. -/
def maxJsDateMs : Nat := 8640000000000000

/-- Proleptic Gregorian calendar date of a day number (days since 1970-01-01),
as `(year, month, day)` with `month ∈ [1,12]`, `day ∈ [1,31]`. -/
def civilFromDays (z : Int) : Int × Nat × Nat :=
  let z := z + 719468
  let era : Int := z / 146097
  let doe : Nat := (z - era * 146097).toNat
  let yoe : Nat := (doe - doe / 1460 + doe / 36524 - doe / 146096) / 365
  let y : Int := (yoe : Int) + era * 400
  let doy : Nat := doe - (365 * yoe + yoe / 4 - yoe / 100)
  let mp : Nat := (5 * doy + 2) / 153
  let d : Nat := doy - (153 * mp + 2) / 5 + 1
  let m : Nat := if mp < 10 then mp + 3 else mp - 9
  (if m ≤ 2 then y + 1 else y, m, d)

/-- `Date.prototype.getUTCFullYear` on an epoch-millisecond value. -/
def getUTCFullYear (t : Int) : Int :=
  (civilFromDays (t / msPerDay)).1

/-- Year field of `Date.prototype.toISOString` (four digits, or the
expanded `±YYYYYY` form outside `[0, 9999]`). -/
def yearChars (y : Int) : List Char :=
  if 0 ≤ y ∧ y ≤ 9999 then padChars 4 y.toNat
  else if y < 0 then '-' :: padChars 6 y.natAbs
  else '+' :: padChars 6 y.toNat

/-- The `YYYY-MM-DD` part of `toISOString`. -/
def isoDatePart (t : Int) : List Char :=
  yearChars (civilFromDays (t / msPerDay)).1 ++
    '-' :: padChars 2 (civilFromDays (t / msPerDay)).2.1 ++
    '-' :: padChars 2 (civilFromDays (t / msPerDay)).2.2

/-- The `HH:mm:ss.sssZ` part of `toISOString`. -/
def isoTimePart (t : Int) : List Char :=
  padChars 2 ((t % msPerDay).toNat / 3600000) ++
    ':' :: padChars 2 ((t % msPerDay).toNat / 60000 % 60) ++
    ':' :: padChars 2 ((t % msPerDay).toNat / 1000 % 60) ++
    '.' :: padChars 3 ((t % msPerDay).toNat % 1000) ++ ['Z']

/-- Characters of `date.toISOString()`. -/
def isoChars (t : Int) : List Char := isoDatePart t ++ 'T' :: isoTimePart t

/-- `Date.prototype.toISOString`: fails (JS `RangeError`) on an invalid date,
i.e. when the epoch offset exceeds `8.64e15` ms in magnitude. -/
def toISOString (t : Int) : Option (List Char) :=
  if t.natAbs ≤ maxJsDateMs then some (isoChars t) else none

/-! ### Data model (`query.ts`, `climate.variable.ts`, `query.error.ts`,
`@djabry/cdsapi`) -/

/-- Modelled from the spec: `climate.variable.ts` is not part of the given
sources; the spec gives the closed enumeration, in this order. -/
inductive ClimateVariable
  | Temperature
  | TotalCloudCover
  | TotalPrecipitation
  | WindSpeed
deriving DecidableEq, Repr

/-- Modelled from the spec: `query.error.ts` is not part of the given sources;
the spec names the three error conditions. -/
inductive QueryError
  | NoDatesFound
  | NoLocationsFound
  | NoVariableFound
deriving DecidableEq, Repr

/-- Modelled from the spec: the binary grid format of `@djabry/cdsapi`. -/
inductive DataFormat
  | grib
  | json
deriving DecidableEq, Repr

/-- An AWS-Comprehend-style entity: type tag, text and confidence score. -/
structure Entity where
  «Type» : String
  Text : String
  Score : ℚ
deriving DecidableEq, Repr

/-- A min/max range of coordinates on one axis. -/
structure CoordRange where
  min : ℚ
  max : ℚ
deriving DecidableEq, Repr

/-- Geographic bounding box (`GeoCoordinates` of `geo.service.ts`). -/
structure GeoCoordinates where
  latitude : CoordRange
  longitude : CoordRange
deriving DecidableEq, Repr

/-- Date range of a query, in epoch milliseconds. -/
structure DateRange where
  min : Int
  max : Int
deriving DecidableEq, Repr

/-- The structured query (`query.ts`); `G` is the opaque type of the raw
geocoding result. -/
structure Query (G : Type) where
  dateRange : DateRange
  googleResult : G
  geoCoordinates : GeoCoordinates
  «variable» : ClimateVariable
deriving DecidableEq, Repr

/-- A value of the JS object `options` in a `DataRequest`. -/
inductive OptionValue
  | str (s : String)
  | strList (l : List String)
  | cvar (v : ClimateVariable)
  | fmt (f : DataFormat)
deriving DecidableEq, Repr

/-- `DataRequest` of `@djabry/cdsapi`; `options` models the JS object as an
ordered key/value list. -/
structure DataRequest where
  name : String
  options : List (String × OptionValue)
deriving DecidableEq, Repr

instance {ε α : Type} [DecidableEq ε] [DecidableEq α] : DecidableEq (Except ε α) := fun x y =>
  match x, y with
  | .error a, .error b =>
    if h : a = b then .isTrue (by rw [h]) else .isFalse (fun hc => h (Except.error.inj hc))
  | .ok a, .ok b =>
    if h : a = b then .isTrue (by rw [h]) else .isFalse (fun hc => h (Except.ok.inj hc))
  | .error _, .ok _ => .isFalse (fun hc => Except.noConfusion hc)
  | .ok _, .error _ => .isFalse (fun hc => Except.noConfusion hc)

/-! ### `QueryService` (`query.service.ts`) -/

/-- The stem-vocabulary table built in the `QueryService` constructor; the
list order is the JS object-key insertion order (enumeration order of
`ClimateVariable`). -/
def stems : List (ClimateVariable × List String) :=
  [(ClimateVariable.Temperature, ["hot", "cold", "warm", "freeze"]),
   (ClimateVariable.TotalCloudCover, ["sun", "cloud", "clear", "overcast"]),
   (ClimateVariable.TotalPrecipitation, ["dry", "wet", "rain", "moist"]),
   (ClimateVariable.WindSpeed, ["wind", "storm", "calm"])]

/-- `new Date("2008-01-01").getTime()`, the `minDate` of `toDates`. -/
def minDateMs : Int := 1199145600000

/-- `QueryService.toDates`: keep the DATE entities, parse their text with the
Sugar date parser (`parse`, a parameter modelling the external collaborator;
`none` is an invalid date, which the time comparison then drops), and keep
the dates not before 2008-01-01. -/
def toDates (parse : String → Option Int) (entites : List Entity) : List Int :=
  ((entites.filter (fun entity => entity.Type = "DATE")).filterMap
      (fun entity => parse entity.Text)).filter
    (fun date => minDateMs ≤ date)

/-- `QueryService.toLocations`: the texts of the LOCATION entities. -/
def toLocations (entities : List Entity) : List String :=
  (entities.filter (fun entity => entity.Type = "LOCATION")).map (fun entity => entity.Text)

/-- The body of the `find` over `Object.keys(this.stems)` in `toVariable`:
the first variable whose vocabulary has a stem that is a prefix of some
extracted keyword. JS `word.startsWith(validStem)` is modelled as a
character-list prefix test. -/
def findVariable (words : List String) : Option ClimateVariable :=
  (stems.find? (fun pair =>
      pair.2.any (fun validStem =>
        words.any (fun word => validStem.data.isPrefixOf word.data)))).map
    Prod.fst

/-- `QueryService.toVariable`; `extract` models the external
`KeywordExtractor.extract` collaborator. The stemmed word list of the source
(line 63) is computed but never used, so it does not appear here. -/
def toVariable (extract : String → List String) (input : String) : Option ClimateVariable :=
  let words := extract input
  findVariable words

/-- The entity sort of `createQuery` (line 79): stable sort by descending
score, as `Array.prototype.sort` with comparator `e2.Score - e1.Score`. -/
def sortEntities (entities : List Entity) : List Entity :=
  List.insertionSort (fun e1 e2 => e2.Score ≤ e1.Score) entities

/-- `QueryService.createQuery`. External collaborators are parameters:
`parse` the Sugar date parser, `getGoogleResult`/`toGeoCoordinates` the
geocoding service (with opaque result type `G`), `extract` the keyword
extractor used by `toVariable`. Thrown `Error`s become `Except.error`. -/
def createQuery {G : Type} (parse : String → Option Int) (getGoogleResult : String → G)
    (toGeoCoordinates : G → GeoCoordinates) (extract : String → List String)
    (input : String) (snerEntities : List Entity) : Except QueryError (Query G) :=
  let entities := sortEntities snerEntities
  let dates := toDates parse entities
  let locations := toLocations entities
  if dates.isEmpty ∨ (dates.find? (fun date =>
      decide (getUTCFullYear date < 2018) && decide (getUTCFullYear date > 2007))).isNone then
    .error QueryError.NoDatesFound
  else if locations.isEmpty then
    .error QueryError.NoLocationsFound
  else
    let googleResult := getGoogleResult (locations.headD "")
    let geoCoordinates := toGeoCoordinates googleResult
    -- Line 95: "Put dates into ascending order" — `filter` returns a fresh
    -- array, `sort` sorts that copy in place, and the result is discarded;
    -- `dates` itself is left untouched.
    let _chronological := List.insertionSort (fun d1 d2 => d1 ≤ d2)
      (dates.filter (fun date =>
        decide (getUTCFullYear date > 2007) && decide (getUTCFullYear date < 2018)))
    match toVariable extract input with
    | none => .error QueryError.NoVariableFound
    | some climateVariable =>
      match dates with
      | [] => .error QueryError.NoDatesFound  -- unreachable: emptiness was checked above
      | d0 :: rest =>
        .ok { dateRange := { min := d0, max := (d0 :: rest).getLast (List.cons_ne_nil d0 rest) }
              googleResult
              geoCoordinates
              «variable» := climateVariable }

/-- `QueryService.toDataRequest`. `Math.round((max.getTime()+min.getTime())/2)`
is the exact half-up rounding of the midpoint, i.e. `⌊(max+min+1)/2⌋`.
String splitting and indexing happen in the `Option` monad, so that every
access the JS code performs on possibly-`undefined` values is explicit. -/
def toDataRequest {G : Type} (query : Query G) : Option DataRequest := do
  let dateMs : Int := (query.dateRange.max + query.dateRange.min + 1) / 2
  let isoDate ← toISOString dateMs
  let datePart ← (jsSplit isoDate 'T')[0]?
  let timePart ← (jsSplit isoDate 'T')[1]?
  let timeParts := jsSplit timePart ':'
  let hour ← timeParts[0]?
  let dateParts := jsSplit datePart '-'
  let year ← dateParts[0]?
  let month ← dateParts[1]?
  let day ← dateParts[2]?
  let latRange := query.geoCoordinates.latitude
  let lonRange := query.geoCoordinates.longitude
  let grid := [latRange, lonRange].map (fun range => intToString (ratCeil (ratSub range.max range.min)))
  let area := [latRange.max, lonRange.min, latRange.min, lonRange.max].map
    (fun coord => numToString coord)
  -- `time` is computed but commented out of the returned options in the source.
  let _time := hour.asString ++ ":00"
  some { name := "reanalysis-era5-single-levels"
         options := [("variable", OptionValue.cvar query.variable),
                     ("product_type", OptionValue.str "reanalysis"),
                     ("grid", OptionValue.strList grid),
                     ("area", OptionValue.strList area),
                     ("year", OptionValue.str year.asString),
                     ("month", OptionValue.str month.asString),
                     ("day", OptionValue.str day.asString),
                     ("format", OptionValue.fmt DataFormat.grib)] }

/-! ### Spec-side definitions (used to state the claims, not taken from the
source) -/

/-- Keep the first occurrence of each string (`seen` collects what occurred). -/
def dedupFirstAux (seen : List String) : List String → List String
  | [] => []
  | x :: xs => if x ∈ seen then dedupFirstAux seen xs else x :: dedupFirstAux (x :: seen) xs

/-- A few common English stopwords of the keyword extractor's list. -/
def stopwords : List String :=
  ["it", "was", "so", "and", "the", "a", "an", "is", "in", "of", "to", "on", "at",
   "this", "that", "here"]

/-- Maximal runs of characters satisfying `keep` (the tokens of a text);
`acc` is the current unfinished token. -/
def tokenizeAux (keep : Char → Bool) : List Char → List Char → List (List Char)
  | [], acc => if acc.isEmpty then [] else [acc]
  | c :: cs, acc =>
    if keep c then tokenizeAux keep cs (acc ++ [c])
    else if acc.isEmpty then tokenizeAux keep cs []
    else acc :: tokenizeAux keep cs []

/-- Modelled from the spec: the external `KeywordExtractor.extract`
collaborator (`keyword-extractor` is not part of the given sources).
Per the spec: lowercase tokens, with digits, duplicates and stopwords
removed, first-occurrence order preserved. -/
def extractKeywords (input : String) : List String :=
  let tokens := (tokenizeAux (fun c => c.isAlphanum) input.data []).map
    (fun w => (w.map Char.toLower).asString)
  let tokens := tokens.filter
    (fun w => w.data.all (fun c => !c.isDigit) && !stopwords.contains w)
  dedupFirstAux [] tokens

/-- Position of a variable in the spec's enumeration order. -/
def enumIdx : ClimateVariable → Nat
  | ClimateVariable.Temperature => 0
  | ClimateVariable.TotalCloudCover => 1
  | ClimateVariable.TotalPrecipitation => 2
  | ClimateVariable.WindSpeed => 3

/-- The spec's vocabulary of a variable, written per variable (to be compared
with the table `stems` of the source). -/
def vocabOf : ClimateVariable → List String
  | ClimateVariable.Temperature => ["hot", "cold", "warm", "freeze"]
  | ClimateVariable.TotalCloudCover => ["sun", "cloud", "clear", "overcast"]
  | ClimateVariable.TotalPrecipitation => ["dry", "wet", "rain", "moist"]
  | ClimateVariable.WindSpeed => ["wind", "storm", "calm"]

/-- "Some vocabulary stem is a prefix of some extracted keyword". -/
def VarMatches (words : List String) (v : ClimateVariable) : Prop :=
  ∃ stem ∈ vocabOf v, ∃ word ∈ words, stem.data.isPrefixOf word.data = true

instance (words : List String) (v : ClimateVariable) : Decidable (VarMatches words v) := by
  unfold VarMatches; infer_instance

/-- The confidence-sorted, `[2008,2017]`-year-filtered date list the spec
describes as the source of the date-range endpoints. -/
def confSortedYearFiltered (parse : String → Option Int) (snerEntities : List Entity) :
    List Int :=
  (toDates parse (sortEntities snerEntities)).filter
    (fun date => decide (2007 < getUTCFullYear date) && decide (getUTCFullYear date < 2018))

/-! ### Concrete example inputs -/

/-- A concrete instance of the external date parser, sending a few fixed
texts to the epoch milliseconds of the date they denote. -/
def parseEx : String → Option Int := fun s =>
  if s = "2010" then some 1262304000000          -- 2010-01-01
  else if s = "2015-03-01" then some 1425168000000
  else if s = "2015-06-01" then some 1433116800000
  else if s = "2020-05-05" then some 1588636800000
  else none

/-- A concrete bounding box (Paris-like): lat `[48.8, 48.9]`, lon `[2.3, 2.4]`. -/
def boxEx : GeoCoordinates :=
  { latitude := { min := mkRat 244 5, max := mkRat 489 10 }
    longitude := { min := mkRat 23 10, max := mkRat 12 5 } }

/-- A concrete geocoding lookup (opaque result type instantiated at `Unit`). -/
def getGoogleResultEx : String → Unit := fun _ => ()

/-- A concrete geometry-to-bounding-box conversion. -/
def toGeoCoordinatesEx : Unit → GeoCoordinates := fun _ => boxEx

/-! ### Lemmas about `jsSplit` -/

theorem splitCharAux_length_pos (sep : Char) (l acc : List Char) :
    1 ≤ (splitCharAux sep l acc).length := by
  induction l generalizing acc with
  | nil => simp [splitCharAux]
  | cons x xs ih =>
    simp only [splitCharAux]
    split
    · simp
    · exact ih _

theorem splitCharAux_no_sep (sep : Char) (b acc : List Char) (hb : sep ∉ b) :
    splitCharAux sep b acc = [acc ++ b] := by
  induction b generalizing acc with
  | nil => simp [splitCharAux]
  | cons x xs ih =>
    have hx : ¬x = sep := fun h => hb (by rw [← h]; exact List.mem_cons_self x xs)
    have hxs : sep ∉ xs := fun h => hb (List.mem_cons_of_mem x h)
    simp only [splitCharAux, if_neg hx, List.append_eq]
    rw [ih _ hxs]
    simp

theorem splitCharAux_append_sep (sep : Char) (a b acc : List Char) (ha : sep ∉ a) :
    splitCharAux sep (a ++ sep :: b) acc = (acc ++ a) :: splitCharAux sep b [] := by
  induction a generalizing acc with
  | nil => simp [splitCharAux]
  | cons x xs ih =>
    have hx : ¬x = sep := fun h => ha (by rw [← h]; exact List.mem_cons_self x xs)
    have hxs : sep ∉ xs := fun h => ha (List.mem_cons_of_mem x h)
    simp only [List.cons_append, splitCharAux, if_neg hx, List.append_eq]
    rw [ih _ hxs]
    simp

theorem jsSplit_append_sep (sep : Char) (a b : List Char) (ha : sep ∉ a) :
    jsSplit (a ++ sep :: b) sep = a :: jsSplit b sep := by
  unfold jsSplit
  rw [splitCharAux_append_sep sep a b [] ha]
  simp

theorem jsSplit_no_sep (sep : Char) (b : List Char) (hb : sep ∉ b) :
    jsSplit b sep = [b] := by
  unfold jsSplit
  rw [splitCharAux_no_sep sep b [] hb]
  simp

theorem jsSplit_length_pos (sep : Char) (l : List Char) : 1 ≤ (jsSplit l sep).length :=
  splitCharAux_length_pos sep l []

/-! ### Lemmas about digit characters and the ISO string shape -/

theorem digitChar_mem (d : Nat) : digitChar d ∈ digitCharsList := by
  rcases d with _ | _ | _ | _ | _ | _ | _ | _ | _ | d <;> try decide
  show '9' ∈ digitCharsList
  decide

theorem mem_natCharsAux (fuel n : Nat) (c : Char) (hc : c ∈ natCharsAux fuel n) :
    c ∈ digitCharsList := by
  induction fuel generalizing n with
  | zero => simp [natCharsAux] at hc
  | succ fuel ih =>
    simp only [natCharsAux] at hc
    split at hc
    · simp only [List.mem_singleton] at hc
      exact hc ▸ digitChar_mem n
    · rcases List.mem_append.mp hc with h1 | h1
      · exact ih _ h1
      · simp only [List.mem_singleton] at h1
        exact h1 ▸ digitChar_mem _

theorem mem_natChars (n : Nat) (c : Char) (hc : c ∈ natChars n) : c ∈ digitCharsList :=
  mem_natCharsAux _ _ _ hc

theorem mem_padChars (w n : Nat) (c : Char) (hc : c ∈ padChars w n) : c ∈ digitCharsList := by
  rcases List.mem_append.mp hc with h1 | h1
  · rw [List.eq_of_mem_replicate h1]; decide
  · exact mem_natChars n c h1

theorem mem_yearChars (y : Int) (c : Char) (hc : c ∈ yearChars y) :
    c = '-' ∨ c = '+' ∨ c ∈ digitCharsList := by
  unfold yearChars at hc
  split at hc
  · exact Or.inr (Or.inr (mem_padChars _ _ _ hc))
  · split at hc
    · rcases List.mem_cons.mp hc with h1 | h1
      · exact Or.inl h1
      · exact Or.inr (Or.inr (mem_padChars _ _ _ h1))
    · rcases List.mem_cons.mp hc with h1 | h1
      · exact Or.inr (Or.inl h1)
      · exact Or.inr (Or.inr (mem_padChars _ _ _ h1))

theorem not_dash_mem_padChars (w n : Nat) : '-' ∉ padChars w n := by
  intro h
  have := mem_padChars _ _ _ h; revert this; decide

theorem not_T_mem_isoDatePart (t : Int) : 'T' ∉ isoDatePart t := by
  intro hc
  unfold isoDatePart at hc
  rcases List.mem_append.mp hc with h1 | h1
  · rcases List.mem_append.mp h1 with h2 | h2
    · rcases mem_yearChars _ _ h2 with h | h | h
      · exact absurd h (by decide)
      · exact absurd h (by decide)
      · revert h; decide
    · rcases List.mem_cons.mp h2 with h | h
      · exact absurd h (by decide)
      · have := mem_padChars _ _ _ h; revert this; decide
  · rcases List.mem_cons.mp h1 with h | h
    · exact absurd h (by decide)
    · have := mem_padChars _ _ _ h; revert this; decide

theorem not_T_mem_isoTimePart (t : Int) : 'T' ∉ isoTimePart t := by
  intro hc
  unfold isoTimePart at hc
  rcases List.mem_append.mp hc with h1 | h1
  on_goal 2 => exact absurd h1 (by decide)
  rcases List.mem_append.mp h1 with h1 | h1
  on_goal 2 =>
    rcases List.mem_cons.mp h1 with h | h
    · exact absurd h (by decide)
    · have := mem_padChars _ _ _ h; revert this; decide
  rcases List.mem_append.mp h1 with h1 | h1
  on_goal 2 =>
    rcases List.mem_cons.mp h1 with h | h
    · exact absurd h (by decide)
    · have := mem_padChars _ _ _ h; revert this; decide
  rcases List.mem_append.mp h1 with h1 | h1
  · have := mem_padChars _ _ _ h1; revert this; decide
  · rcases List.mem_cons.mp h1 with h | h
    · exact absurd h (by decide)
    · have := mem_padChars _ _ _ h; revert this; decide

theorem jsSplit_isoChars (t : Int) :
    jsSplit (isoChars t) 'T' = [isoDatePart t, isoTimePart t] := by
  unfold isoChars
  rw [jsSplit_append_sep 'T' _ _ (not_T_mem_isoDatePart t)]
  rw [jsSplit_no_sep 'T' _ (not_T_mem_isoTimePart t)]

theorem length_jsSplit_isoDatePart (t : Int) :
    3 ≤ (jsSplit (isoDatePart t) '-').length := by
  have hshape : isoDatePart t =
      yearChars (civilFromDays (t / msPerDay)).1 ++
        '-' :: (padChars 2 (civilFromDays (t / msPerDay)).2.1 ++
          '-' :: padChars 2 (civilFromDays (t / msPerDay)).2.2) := by
    simp [isoDatePart, List.append_assoc]
  rw [hshape]
  unfold yearChars
  by_cases h1 : 0 ≤ (civilFromDays (t / msPerDay)).1 ∧ (civilFromDays (t / msPerDay)).1 ≤ 9999
  · rw [if_pos h1, jsSplit_append_sep '-' _ _ (not_dash_mem_padChars 4 _),
      jsSplit_append_sep '-' _ _ (not_dash_mem_padChars 2 _),
      jsSplit_no_sep '-' _ (not_dash_mem_padChars 2 _)]
    simp
  · rw [if_neg h1]
    by_cases h2 : (civilFromDays (t / msPerDay)).1 < 0
    · rw [if_pos h2]
      rw [show ('-' :: padChars 6 (civilFromDays (t / msPerDay)).1.natAbs) ++
            '-' :: (padChars 2 (civilFromDays (t / msPerDay)).2.1 ++
              '-' :: padChars 2 (civilFromDays (t / msPerDay)).2.2) =
          [] ++ '-' :: (padChars 6 (civilFromDays (t / msPerDay)).1.natAbs ++
            '-' :: (padChars 2 (civilFromDays (t / msPerDay)).2.1 ++
              '-' :: padChars 2 (civilFromDays (t / msPerDay)).2.2)) from by simp]
      rw [jsSplit_append_sep '-' _ _ (by simp),
        jsSplit_append_sep '-' _ _ (not_dash_mem_padChars 6 _),
        jsSplit_append_sep '-' _ _ (not_dash_mem_padChars 2 _),
        jsSplit_no_sep '-' _ (not_dash_mem_padChars 2 _)]
      simp
    · rw [if_neg h2]
      rw [jsSplit_append_sep '-' _ _ (by
          intro h
          rcases List.mem_cons.mp h with h3 | h3
          · exact absurd h3 (by decide)
          · exact not_dash_mem_padChars 6 _ h3),
        jsSplit_append_sep '-' _ _ (not_dash_mem_padChars 2 _),
        jsSplit_no_sep '-' _ (not_dash_mem_padChars 2 _)]
      simp

/-! ### Normal form of `toDataRequest` -/

/-- The midpoint instant `Math.round((max.getTime()+min.getTime())/2)`. -/
def midMs {G : Type} (query : Query G) : Int :=
  (query.dateRange.max + query.dateRange.min + 1) / 2

/-- Successful run of `toDataRequest`, with every field explicit. -/
theorem toDataRequest_eq_some {G : Type} (query : Query G)
    (h : (midMs query).natAbs ≤ maxJsDateMs) :
    toDataRequest query = some
      { name := "reanalysis-era5-single-levels"
        options := [
          ("variable", OptionValue.cvar query.variable),
          ("product_type", OptionValue.str "reanalysis"),
          ("grid", OptionValue.strList
            [intToString (ratCeil (ratSub query.geoCoordinates.latitude.max query.geoCoordinates.latitude.min)),
             intToString (ratCeil (ratSub query.geoCoordinates.longitude.max query.geoCoordinates.longitude.min))]),
          ("area", OptionValue.strList
            [numToString query.geoCoordinates.latitude.max,
             numToString query.geoCoordinates.longitude.min,
             numToString query.geoCoordinates.latitude.min,
             numToString query.geoCoordinates.longitude.max]),
          ("year", OptionValue.str (((jsSplit (isoDatePart (midMs query)) '-')[0]?.getD []).asString)),
          ("month", OptionValue.str (((jsSplit (isoDatePart (midMs query)) '-')[1]?.getD []).asString)),
          ("day", OptionValue.str (((jsSplit (isoDatePart (midMs query)) '-')[2]?.getD []).asString)),
          ("format", OptionValue.fmt DataFormat.grib)] } := by
  have hiso : toISOString (midMs query) = some (isoChars (midMs query)) := by
    unfold toISOString
    rw [if_pos h]
  have hlen3 := length_jsSplit_isoDatePart (midMs query)
  have hlen1 := jsSplit_length_pos ':' (isoTimePart (midMs query))
  obtain ⟨hr0, hhr0⟩ : ∃ x, (jsSplit (isoTimePart (midMs query)) ':')[0]? = some x :=
    ⟨_, List.getElem?_eq_getElem (by omega)⟩
  obtain ⟨y0, hy0⟩ : ∃ x, (jsSplit (isoDatePart (midMs query)) '-')[0]? = some x :=
    ⟨_, List.getElem?_eq_getElem (by omega)⟩
  obtain ⟨y1, hy1⟩ : ∃ x, (jsSplit (isoDatePart (midMs query)) '-')[1]? = some x :=
    ⟨_, List.getElem?_eq_getElem (by omega)⟩
  obtain ⟨y2, hy2⟩ : ∃ x, (jsSplit (isoDatePart (midMs query)) '-')[2]? = some x :=
    ⟨_, List.getElem?_eq_getElem (by omega)⟩
  simp only [midMs] at hiso hhr0 hy0 hy1 hy2 ⊢
  simp only [toDataRequest, hiso, Bind.bind, Option.bind, jsSplit_isoChars,
    List.getElem?_cons_zero, List.getElem?_cons_succ, hhr0, hy0, hy1, hy2,
    Option.getD_some, List.map_cons, List.map_nil]

/-- Any successful `toDataRequest` yields the literal options object of the
source, whose keys are exactly `variable`, `product_type`, `grid`, `area`,
`year`, `month`, `day`, `format`. -/
theorem toDataRequest_options_shape {G : Type} (query : Query G) (r : DataRequest)
    (h : toDataRequest query = some r) :
    ∃ year month day,
      r = { name := "reanalysis-era5-single-levels"
            options := [
              ("variable", OptionValue.cvar query.variable),
              ("product_type", OptionValue.str "reanalysis"),
              ("grid", OptionValue.strList
                [intToString (ratCeil (ratSub query.geoCoordinates.latitude.max query.geoCoordinates.latitude.min)),
                 intToString (ratCeil (ratSub query.geoCoordinates.longitude.max query.geoCoordinates.longitude.min))]),
              ("area", OptionValue.strList
                [numToString query.geoCoordinates.latitude.max,
                 numToString query.geoCoordinates.longitude.min,
                 numToString query.geoCoordinates.latitude.min,
                 numToString query.geoCoordinates.longitude.max]),
              ("year", OptionValue.str year),
              ("month", OptionValue.str month),
              ("day", OptionValue.str day),
              ("format", OptionValue.fmt DataFormat.grib)] } := by
  by_cases hv : (midMs query).natAbs ≤ maxJsDateMs
  · rw [toDataRequest_eq_some query hv] at h
    exact ⟨_, _, _, (Option.some_inj.mp h).symm⟩
  · exfalso
    simp only [midMs] at hv
    have hnone : toISOString ((query.dateRange.max + query.dateRange.min + 1) / 2) = none := by
      unfold toISOString
      rw [if_neg hv]
    simp only [toDataRequest, hnone, Option.none_bind] at h
    exact Option.noConfusion h

/-! ### Lemmas about `toDates` and `createQuery` -/

theorem mem_sortEntities {e : Entity} {l : List Entity} : e ∈ sortEntities l ↔ e ∈ l := by
  unfold sortEntities
  exact (List.perm_insertionSort _ l).mem_iff

theorem mem_toDates (parse : String → Option Int) (entities : List Entity) (d : Int)
    (hd : d ∈ toDates parse entities) :
    minDateMs ≤ d ∧ ∃ e ∈ entities, e.Type = "DATE" ∧ parse e.Text = some d := by
  unfold toDates at hd
  have h1 := List.mem_filter.mp hd
  obtain ⟨e, he, hpe⟩ := List.mem_filterMap.mp h1.1
  have h2 := List.mem_filter.mp he
  refine ⟨by simpa using h1.2, e, h2.1, by simpa using h2.2, hpe⟩

/-- Inverting a successful `createQuery`: the date-range endpoints are the
head and the last element of the (confidence-ordered) `toDates` output, and
some date of that output has a year in the 2008–2017 window. -/
theorem createQuery_ok {G : Type} (parse : String → Option Int) (gg : String → G)
    (tgc : G → GeoCoordinates) (extract : String → List String) (input : String)
    (snerEntities : List Entity) (q : Query G)
    (h : createQuery parse gg tgc extract input snerEntities = .ok q) :
    ∃ rest, toDates parse (sortEntities snerEntities) = q.dateRange.min :: rest ∧
      q.dateRange.max = (q.dateRange.min :: rest).getLast (List.cons_ne_nil _ _) ∧
      ∃ d ∈ toDates parse (sortEntities snerEntities),
        getUTCFullYear d < 2018 ∧ getUTCFullYear d > 2007 := by
  simp only [createQuery] at h
  by_cases hc1 : (toDates parse (sortEntities snerEntities)).isEmpty = true ∨
      (List.find? (fun date =>
        decide (getUTCFullYear date < 2018) && decide (getUTCFullYear date > 2007))
        (toDates parse (sortEntities snerEntities))).isNone = true
  · rw [if_pos hc1] at h
    exact absurd h (by simp)
  have hfind : ∃ x ∈ toDates parse (sortEntities snerEntities),
      (decide (getUTCFullYear x < 2018) && decide (getUTCFullYear x > 2007)) = true := by
    rw [← List.find?_isSome]
    rcases hopt : List.find? (fun date =>
        decide (getUTCFullYear date < 2018) && decide (getUTCFullYear date > 2007))
        (toDates parse (sortEntities snerEntities)) with _ | v
    · exact absurd (Or.inr (by simp [hopt])) hc1
    · simp
  obtain ⟨d, hdmem, hdp⟩ := hfind
  simp only [Bool.and_eq_true, decide_eq_true_eq] at hdp
  rw [if_neg hc1] at h
  by_cases hc2 : (toLocations (sortEntities snerEntities)).isEmpty = true
  · rw [if_pos hc2] at h
    exact absurd h (by simp)
  rw [if_neg hc2] at h
  split at h
  · exact absurd h (by simp)
  next cv htv =>
  split at h
  · exact absurd h (by simp)
  next d0 rest heq2 =>
  have hq := Except.ok.inj h
  subst hq
  refine ⟨rest, ?_, ?_, d, hdmem, hdp.1, hdp.2⟩
  · exact heq2
  · simp

/-! ### Concrete queries and requests for the witnesses -/

/-- A query whose date range is exactly 2015-03-01 on both ends, with the
Paris-like bounding box. -/
def qEx : Query Unit :=
  { dateRange := { min := 1425168000000, max := 1425168000000 }
    googleResult := ()
    geoCoordinates := boxEx
    «variable» := ClimateVariable.Temperature }

/-- The request `toDataRequest` produces for `qEx`. -/
def rEx : DataRequest :=
  { name := "reanalysis-era5-single-levels"
    options := [
      ("variable", OptionValue.cvar ClimateVariable.Temperature),
      ("product_type", OptionValue.str "reanalysis"),
      ("grid", OptionValue.strList ["1", "1"]),
      ("area", OptionValue.strList ["48.9", "2.3", "48.8", "2.4"]),
      ("year", OptionValue.str "2015"),
      ("month", OptionValue.str "03"),
      ("day", OptionValue.str "01"),
      ("format", OptionValue.fmt DataFormat.grib)] }

/-- Entity list whose highest-confidence date parses to 2020-05-05 (outside
the supported year window) while a lower-confidence one parses to 2010. -/
def entsC1 : List Entity :=
  [{ «Type» := "DATE", Text := "2020-05-05", Score := 3 },
   { «Type» := "DATE", Text := "2010", Score := 2 },
   { «Type» := "LOCATION", Text := "Paris", Score := 1 }]

/-- The query `createQuery` builds from `entsC1`: `min` is the 2020 date,
`max` the 2010 date. -/
def qC1 : Query Unit :=
  { dateRange := { min := 1588636800000, max := 1262304000000 }
    googleResult := ()
    geoCoordinates := boxEx
    «variable» := ClimateVariable.Temperature }

/-- Entity list whose confidence order is 2010, 2015-06-01, 2020-05-05. -/
def entsC5 : List Entity :=
  [{ «Type» := "DATE", Text := "2010", Score := 3 },
   { «Type» := "DATE", Text := "2015-06-01", Score := 2 },
   { «Type» := "DATE", Text := "2020-05-05", Score := 1 },
   { «Type» := "LOCATION", Text := "Paris", Score := mkRat 1 2 }]

/-- The query `createQuery` builds from `entsC5`. -/
def qC5 : Query Unit :=
  { dateRange := { min := 1262304000000, max := 1588636800000 }
    googleResult := ()
    geoCoordinates := boxEx
    «variable» := ClimateVariable.Temperature }

/-- A DATE-only entity list with a valid 2015 date (and no locations). -/
def entsC3 : List Entity :=
  [{ «Type» := "DATE", Text := "2015-06-01", Score := 1 }]

/-- A DATE-only entity list whose only date parses to 2020 (and no locations). -/
def entsC10 : List Entity :=
  [{ «Type» := "DATE", Text := "2020-05-05", Score := 1 }]

/-- An entity list with one valid date and one location. -/
def entsOk : List Entity :=
  [{ «Type» := "DATE", Text := "2015-06-01", Score := 1 },
   { «Type» := "LOCATION", Text := "Paris", Score := mkRat 1 2 }]

/-- The query `createQuery` builds from `entsOk`. -/
def qOk : Query Unit :=
  { dateRange := { min := 1433116800000, max := 1433116800000 }
    googleResult := ()
    geoCoordinates := boxEx
    «variable» := ClimateVariable.Temperature }

/-! ### Claims -/

/-- C8: `toDataRequest` is a pure function of its `Query` argument, so
building a `DataRequest` twice from the same query gives identical values. -/
theorem c8_toDataRequest_deterministic {G : Type} (q : Query G) :
    toDataRequest q = toDataRequest q := rfl

/-- C9: on every query satisfying the `Query` invariant (valid dates with
`min ≤ max`, bounding box with `min ≤ max` per axis), `toDataRequest`
returns normally: the ISO-string splitting and every list access succeed. -/
theorem c9_toDataRequest_total {G : Type} (q : Query G)
    (hminv : q.dateRange.min.natAbs ≤ maxJsDateMs)
    (hmaxv : q.dateRange.max.natAbs ≤ maxJsDateMs)
    (_hord : q.dateRange.min ≤ q.dateRange.max)
    (_hlat : q.geoCoordinates.latitude.min ≤ q.geoCoordinates.latitude.max)
    (_hlon : q.geoCoordinates.longitude.min ≤ q.geoCoordinates.longitude.max) :
    (toDataRequest q).isSome = true := by
  have h : (midMs q).natAbs ≤ maxJsDateMs := by
    unfold midMs maxJsDateMs at *
    omega
  rw [toDataRequest_eq_some q h]
  rfl

/-- Witness for C9 at the concrete query `qEx`. -/
theorem c9_witness : (toDataRequest qEx).isSome = true :=
  c9_toDataRequest_total qEx (by decide) (by decide) (by decide) (by decide) (by decide)

/-- C2 counterexample: a DATE entity parsing to 2020-05-05 passes `toDates`
(its year 2020 is not strictly below 2018), so the claimed year window is
violated by the output. -/
theorem c2_counterexample :
    ¬ ∀ d ∈ toDates parseEx [{ «Type» := "DATE", Text := "2020-05-05", Score := 1 }],
        2007 < getUTCFullYear d ∧ getUTCFullYear d < 2018 := by decide

/-- C2 (amended): every element of the `toDates` output is a successfully
parsed DATE entity whose time is at or after 2008-01-01; no upper bound on
the year is applied by `toDates`. -/
theorem c2_toDates_members (parse : String → Option Int) (entities : List Entity) (d : Int)
    (hd : d ∈ toDates parse entities) :
    minDateMs ≤ d ∧ ∃ e ∈ entities, e.Type = "DATE" ∧ parse e.Text = some d :=
  mem_toDates parse entities d hd

/-- Witness for C2 at a concrete entity list. -/
theorem c2_witness :
    1433116800000 ∈ toDates parseEx entsC3 ∧
      (minDateMs ≤ (1433116800000 : Int) ∧
        ∃ e ∈ entsC3, e.Type = "DATE" ∧ parseEx e.Text = some 1433116800000) :=
  ⟨by decide, c2_toDates_members parseEx entsC3 1433116800000 (by decide)⟩

/-- C1 counterexample: `createQuery` succeeds on `entsC1` with
`dateRange.min` in 2020 (outside `[2008, 2017]`) and `min > max`. -/
theorem c1_counterexample :
    createQuery parseEx getGoogleResultEx toGeoCoordinatesEx extractKeywords "cold" entsC1 =
        .ok qC1 ∧
      ¬(qC1.dateRange.min ≤ qC1.dateRange.max ∧
        2008 ≤ getUTCFullYear qC1.dateRange.min ∧ getUTCFullYear qC1.dateRange.min ≤ 2017 ∧
        2008 ≤ getUTCFullYear qC1.dateRange.max ∧ getUTCFullYear qC1.dateRange.max ≤ 2017) := by
  constructor
  · decide
  · decide

/-- C1 (amended): for every query `createQuery` returns, both date-range
endpoints are at or after 2008-01-01, and some date of the parsed list has a
year in `[2008, 2017]`; neither `min ≤ max` nor the `[2008, 2017]` bound on
the endpoints themselves holds in general. -/
theorem c1_dateRange_invariant {G : Type} (parse : String → Option Int) (gg : String → G)
    (tgc : G → GeoCoordinates) (extract : String → List String) (input : String)
    (snerEntities : List Entity) (q : Query G)
    (h : createQuery parse gg tgc extract input snerEntities = .ok q) :
    minDateMs ≤ q.dateRange.min ∧ minDateMs ≤ q.dateRange.max ∧
      ∃ d ∈ toDates parse (sortEntities snerEntities),
        2007 < getUTCFullYear d ∧ getUTCFullYear d < 2018 := by
  obtain ⟨rest, hlist, hlast, d, hdmem, h1, h2⟩ :=
    createQuery_ok parse gg tgc extract input snerEntities q h
  have hminmem : q.dateRange.min ∈ toDates parse (sortEntities snerEntities) := by
    rw [hlist]; exact List.mem_cons_self _ _
  have hmaxmem : q.dateRange.max ∈ toDates parse (sortEntities snerEntities) := by
    rw [hlist, hlast]; exact List.getLast_mem _
  exact ⟨(mem_toDates _ _ _ hminmem).1, (mem_toDates _ _ _ hmaxmem).1, d, hdmem, h2, h1⟩

/-- Witness for C1 at the concrete entity list `entsOk`. -/
theorem c1_witness :
    minDateMs ≤ qOk.dateRange.min ∧ minDateMs ≤ qOk.dateRange.max ∧
      ∃ d ∈ toDates parseEx (sortEntities entsOk),
        2007 < getUTCFullYear d ∧ getUTCFullYear d < 2018 :=
  c1_dateRange_invariant parseEx getGoogleResultEx toGeoCoordinatesEx extractKeywords "cold"
    entsOk qOk (by decide)

/-- C3 counterexample: the empty entity list has zero LOCATION entities, yet
`createQuery` fails with `NoDatesFound`, not `NoLocationsFound`. -/
theorem c3_counterexample :
    createQuery parseEx getGoogleResultEx toGeoCoordinatesEx extractKeywords "cold"
        ([] : List Entity) = .error QueryError.NoDatesFound ∧
      createQuery parseEx getGoogleResultEx toGeoCoordinatesEx extractKeywords "cold"
        ([] : List Entity) ≠ .error QueryError.NoLocationsFound := by
  constructor
  · decide
  · decide

/-- C3 (amended): for every entity list with zero LOCATION entities whose
parsed date list passes the date check (some parsed date has a year in
`[2008, 2017]`), `createQuery` fails with `NoLocationsFound`; when the date
check fails too, `NoDatesFound` takes precedence. -/
theorem c3_noLocationsFound {G : Type} (parse : String → Option Int) (gg : String → G)
    (tgc : G → GeoCoordinates) (extract : String → List String) (input : String)
    (snerEntities : List Entity)
    (hloc : ∀ e ∈ snerEntities, e.Type ≠ "LOCATION")
    (hdates : ∃ d ∈ toDates parse (sortEntities snerEntities),
      getUTCFullYear d < 2018 ∧ getUTCFullYear d > 2007) :
    createQuery parse gg tgc extract input snerEntities =
      .error QueryError.NoLocationsFound := by
  simp only [createQuery]
  obtain ⟨d, hd, h1, h2⟩ := hdates
  rw [if_neg]
  · rw [if_pos]
    rw [List.isEmpty_iff]
    unfold toLocations
    rw [List.map_eq_nil_iff, List.filter_eq_nil_iff]
    intro e he
    have hmem : e ∈ snerEntities := mem_sortEntities.mp he
    simpa using hloc e hmem
  · rw [not_or]
    constructor
    · rw [List.isEmpty_iff]
      intro hemp
      rw [hemp] at hd
      exact absurd hd (List.not_mem_nil d)
    · rw [Option.isNone_iff_eq_none]
      intro hnone
      have := List.find?_eq_none.mp hnone d hd
      simp only [Bool.and_eq_true, decide_eq_true_eq, not_and] at this
      exact this h1 h2

/-- Witness for C3 at the concrete entity list `entsC3`. -/
theorem c3_witness :
    createQuery parseEx getGoogleResultEx toGeoCoordinatesEx extractKeywords "cold" entsC3 =
      .error QueryError.NoLocationsFound :=
  c3_noLocationsFound parseEx getGoogleResultEx toGeoCoordinatesEx extractKeywords "cold"
    entsC3 (by decide) (by decide)

/-- C10: when no entity is a LOCATION and no DATE entity parses to a year in
`[2008, 2017]`, `createQuery` fails with `NoDatesFound`: the date check at
line 83 runs before the location check at line 86. -/
theorem c10_noDatesFound_precedence {G : Type} (parse : String → Option Int) (gg : String → G)
    (tgc : G → GeoCoordinates) (extract : String → List String) (input : String)
    (snerEntities : List Entity)
    (_hloc : ∀ e ∈ snerEntities, e.Type ≠ "LOCATION")
    (hdates : ∀ e ∈ snerEntities, e.Type = "DATE" → ∀ t, parse e.Text = some t →
      ¬(2007 < getUTCFullYear t ∧ getUTCFullYear t < 2018)) :
    createQuery parse gg tgc extract input snerEntities =
      .error QueryError.NoDatesFound := by
  simp only [createQuery]
  rw [if_pos]
  right
  rw [Option.isNone_iff_eq_none, List.find?_eq_none]
  intro d hd
  obtain ⟨_hmin, e, he, hty, hpe⟩ := mem_toDates parse (sortEntities snerEntities) d hd
  have hmem : e ∈ snerEntities := mem_sortEntities.mp he
  have := hdates e hmem hty d hpe
  simp only [Bool.and_eq_true, decide_eq_true_eq, not_and] at this ⊢
  intro hlt
  exact fun hgt => this hgt hlt

/-- Witness for C10 at the concrete entity list `entsC10`. -/
theorem c10_witness :
    createQuery parseEx getGoogleResultEx toGeoCoordinatesEx extractKeywords "cold" entsC10 =
      .error QueryError.NoDatesFound :=
  c10_noDatesFound_precedence parseEx getGoogleResultEx toGeoCoordinatesEx extractKeywords
    "cold" entsC10 (by decide) (by decide)

/-- C5 counterexample: on `entsC5` the confidence-sorted, year-filtered list
ends with the 2015 date, but `dateRange.max` is the 2020 date — the endpoints
are taken from the unfiltered `toDates` output, not from the year-filtered
list (and not from a chronologically sorted one). -/
theorem c5_counterexample :
    createQuery parseEx getGoogleResultEx toGeoCoordinatesEx extractKeywords "cold" entsC5 =
        .ok qC5 ∧
      (confSortedYearFiltered parseEx entsC5).getLast? = some 1433116800000 ∧
      qC5.dateRange.max ≠ 1433116800000 := by
  refine ⟨?_, ?_, ?_⟩ <;> decide

/-- C5 (amended): the date-range endpoints are the first and last elements of
the confidence-sorted `toDates` output — which carries only the 2008-01-01
lower bound, not the `[2008, 2017]` year filter; the chronologically sorted
(and year-filtered) copy computed at line 95 is never applied to the array
the endpoints are taken from. -/
theorem c5_endpoints_confidence_order {G : Type} (parse : String → Option Int)
    (gg : String → G) (tgc : G → GeoCoordinates) (extract : String → List String)
    (input : String) (snerEntities : List Entity) (q : Query G)
    (h : createQuery parse gg tgc extract input snerEntities = .ok q) :
    (toDates parse (sortEntities snerEntities)).head? = some q.dateRange.min ∧
      (toDates parse (sortEntities snerEntities)).getLast? = some q.dateRange.max := by
  obtain ⟨rest, hlist, hlast, -⟩ :=
    createQuery_ok parse gg tgc extract input snerEntities q h
  constructor
  · rw [hlist, List.head?_cons]
  · rw [hlist, List.getLast?_eq_getLast _ (List.cons_ne_nil _ _), hlast]

/-- Witness for C5 at the concrete entity list `entsC5`. -/
theorem c5_witness :
    (toDates parseEx (sortEntities entsC5)).head? = some qC5.dateRange.min ∧
      (toDates parseEx (sortEntities entsC5)).getLast? = some qC5.dateRange.max :=
  c5_endpoints_confidence_order parseEx getGoogleResultEx toGeoCoordinatesEx extractKeywords
    "cold" entsC5 qC5 (by decide)

/-- The source's table-driven `find` equals the spec's first match over the
enumeration order of `ClimateVariable`. -/
theorem findVariable_spec (words : List String) :
    findVariable words =
      [ClimateVariable.Temperature, ClimateVariable.TotalCloudCover,
       ClimateVariable.TotalPrecipitation, ClimateVariable.WindSpeed].find?
        (fun v => decide (VarMatches words v)) := by
  have hd : ∀ v : ClimateVariable,
      decide (VarMatches words v) =
        (vocabOf v).any (fun validStem =>
          words.any (fun word => validStem.data.isPrefixOf word.data)) := by
    intro v
    have hiff : VarMatches words v ↔
        ((vocabOf v).any (fun validStem =>
          words.any (fun word => validStem.data.isPrefixOf word.data))) = true := by
      simp [VarMatches, List.any_eq_true]
    rw [decide_eq_decide.mpr hiff, Bool.decide_coe]
  have hs : stems = [(ClimateVariable.Temperature, vocabOf ClimateVariable.Temperature),
      (ClimateVariable.TotalCloudCover, vocabOf ClimateVariable.TotalCloudCover),
      (ClimateVariable.TotalPrecipitation, vocabOf ClimateVariable.TotalPrecipitation),
      (ClimateVariable.WindSpeed, vocabOf ClimateVariable.WindSpeed)] := rfl
  unfold findVariable
  rw [hs]
  cases h1 : (vocabOf ClimateVariable.Temperature).any (fun validStem =>
      words.any (fun word => validStem.data.isPrefixOf word.data)) <;>
  cases h2 : (vocabOf ClimateVariable.TotalCloudCover).any (fun validStem =>
      words.any (fun word => validStem.data.isPrefixOf word.data)) <;>
  cases h3 : (vocabOf ClimateVariable.TotalPrecipitation).any (fun validStem =>
      words.any (fun word => validStem.data.isPrefixOf word.data)) <;>
  cases h4 : (vocabOf ClimateVariable.WindSpeed).any (fun validStem =>
      words.any (fun word => validStem.data.isPrefixOf word.data)) <;>
  simp [List.find?, hd, h1, h2, h3, h4]

/-- C4: `toVariable` returns the first `ClimateVariable` in enumeration order
(Temperature, TotalCloudCover, TotalPrecipitation, WindSpeed) for which some
vocabulary stem is a prefix of some extracted keyword; in particular it
classifies "It was so cold and windy" as `Temperature`. -/
theorem c4_variable_first_match :
    (∀ (extract : String → List String) (input : String),
        toVariable extract input =
          [ClimateVariable.Temperature, ClimateVariable.TotalCloudCover,
           ClimateVariable.TotalPrecipitation, ClimateVariable.WindSpeed].find?
            (fun v => decide (VarMatches (extract input) v))) ∧
      toVariable extractKeywords "It was so cold and windy" =
        some ClimateVariable.Temperature :=
  ⟨fun extract input => findVariable_spec (extract input), by decide⟩

/-- C6: for a query whose date range is 2015-03-01 on both ends,
`toDataRequest` yields `year="2015"`, `month="03"`, `day="01"`; and for every
query, the returned options object has no `time` or `hour` key (the computed
`time` is commented out of the source's options literal). -/
theorem c6_dataRequest_date_fields :
    (∀ (G : Type) (q : Query G),
        q.dateRange.min = 1425168000000 → q.dateRange.max = 1425168000000 →
        ∃ r, toDataRequest q = some r ∧
          r.options.lookup "year" = some (OptionValue.str "2015") ∧
          r.options.lookup "month" = some (OptionValue.str "03") ∧
          r.options.lookup "day" = some (OptionValue.str "01")) ∧
      (∀ (G : Type) (q : Query G) (r : DataRequest), toDataRequest q = some r →
        r.options.lookup "time" = none ∧ r.options.lookup "hour" = none) := by
  constructor
  · intro G q hmin hmax
    have hmid : midMs q = 1425168000000 := by
      unfold midMs
      rw [hmax, hmin]
      decide
    refine ⟨_, toDataRequest_eq_some q (by rw [hmid]; decide), ?_, ?_, ?_⟩ <;>
      rw [hmid] <;> simp [List.lookup] <;> decide
  · intro G q r h
    obtain ⟨y, m, d, rfl⟩ := toDataRequest_options_shape q r h
    constructor <;> simp [List.lookup]

/-- Witness for C6 at the concrete query `qEx` and request `rEx`. -/
theorem c6_witness :
    (∃ r, toDataRequest qEx = some r ∧
        r.options.lookup "year" = some (OptionValue.str "2015") ∧
        r.options.lookup "month" = some (OptionValue.str "03") ∧
        r.options.lookup "day" = some (OptionValue.str "01")) ∧
      rEx.options.lookup "time" = none ∧ rEx.options.lookup "hour" = none :=
  ⟨c6_dataRequest_date_fields.1 Unit qEx rfl rfl,
   c6_dataRequest_date_fields.2 Unit qEx rEx (by decide)⟩

/-- C7: `toDataRequest` sets `grid` to the stringified per-axis ceiling of
the bounding-box span and `area` to the stringified
`[latMax, lonMin, latMin, lonMax]`; on the box lat `[48.8, 48.9]`,
lon `[2.3, 2.4]` this is `grid = ["1","1"]`,
`area = ["48.9","2.3","48.8","2.4"]`. -/
theorem c7_grid_area_formulas :
    (∀ (G : Type) (q : Query G) (r : DataRequest), toDataRequest q = some r →
        r.options.lookup "grid" = some (OptionValue.strList
          [intToString ⌈q.geoCoordinates.latitude.max - q.geoCoordinates.latitude.min⌉,
           intToString ⌈q.geoCoordinates.longitude.max - q.geoCoordinates.longitude.min⌉]) ∧
        r.options.lookup "area" = some (OptionValue.strList
          [numToString q.geoCoordinates.latitude.max,
           numToString q.geoCoordinates.longitude.min,
           numToString q.geoCoordinates.latitude.min,
           numToString q.geoCoordinates.longitude.max])) ∧
      (toDataRequest qEx = some rEx ∧
        rEx.options.lookup "grid" = some (OptionValue.strList ["1", "1"]) ∧
        rEx.options.lookup "area" =
          some (OptionValue.strList ["48.9", "2.3", "48.8", "2.4"])) := by
  constructor
  · intro G q r h
    obtain ⟨y, m, d, rfl⟩ := toDataRequest_options_shape q r h
    constructor <;> simp [List.lookup, ratSub_eq, ratCeil_eq]
  · refine ⟨by decide, by decide, by decide⟩

/-- Witness for C7 at the concrete query `qEx` and request `rEx`. -/
theorem c7_witness :
    rEx.options.lookup "grid" = some (OptionValue.strList
        [intToString ⌈qEx.geoCoordinates.latitude.max - qEx.geoCoordinates.latitude.min⌉,
         intToString ⌈qEx.geoCoordinates.longitude.max - qEx.geoCoordinates.longitude.min⌉]) ∧
      rEx.options.lookup "area" = some (OptionValue.strList
        [numToString qEx.geoCoordinates.latitude.max,
         numToString qEx.geoCoordinates.longitude.min,
         numToString qEx.geoCoordinates.latitude.min,
         numToString qEx.geoCoordinates.longitude.max]) :=
  c7_grid_area_formulas.1 Unit qEx rEx (by decide)

end AskEra
